import Mathlib

/-!
# Terraform Challenge App: the HTTP probe in front of a Redis cache

Shallow embedding of `terraform-hands-on/app/server.js`.

* JavaScript values are the type `JsVal`; truthiness, `||`, `!== null` and property
  access follow the language.
* The Redis client created by `createClient` is an external library.  It is a parameter
  `RedisClient σ`: `σ` is the hidden state of the client and of the cache behind it, and
  every asynchronous operation is a function from that state to a resolved value or a
  rejection (`Except JsError`) and the next state.
* A handler is a computation `Eff σ Unit` over the record `St`: the client state, the
  number of `new Date()` evaluations so far, the cache client calls made (with their
  outcome) and the responses written with `res.json`.  A rejection that escapes a handler
  is the `Except.error` result of the computation.
* Console output (`console.log`, `console.error`, the logging middleware) is not part of
  the embedding.
-/

namespace TerraformChallenge

/-! ## JavaScript values -/

/-- A JavaScript value, as far as the handlers and the JSON bodies need it. -/
inductive JsVal where
  | undefined
  | null
  | bool (b : Bool)
  | num (n : Int)
  | str (s : String)
  | arr (items : List JsVal)
  | obj (fields : List (String × JsVal))

/-- Truthiness of a value: the test behind `!x`, `!!x` and `x || y`. -/
def JsVal.truthy : JsVal → Bool
  | .undefined => false
  | .null => false
  | .bool b => b
  | .num n => n != 0
  | .str s => s != ""
  | .arr _ => true
  | .obj _ => true

/-- The operator `a || b`. -/
def jsOr (a b : JsVal) : JsVal :=
  if a.truthy then a else b

/-- The test `v !== null`. -/
def JsVal.notNull : JsVal → Bool
  | .null => false
  | _ => true

/-- Property access `v.name`: `undefined` when the property is absent. -/
def JsVal.field (v : JsVal) (name : String) : JsVal :=
  match v with
  | .obj fields =>
    match fields.lookup name with
    | some x => x
    | none => .undefined
  | _ => .undefined

/-- The object without the property `name`. -/
def JsVal.without (v : JsVal) (name : String) : JsVal :=
  match v with
  | .obj fields => .obj (fields.filter fun p => p.1 != name)
  | other => other

/-- An error object: what a rejected client call carries. -/
structure JsError where
  message : String
  code : JsVal
  constructorName : String

/-! ## Configuration (lines 5-11) -/

/-- The variables of `process.env` the service reads; `none` is an unset variable. -/
structure ProcessEnv where
  PORT : Option String
  REDIS_HOST : Option String
  REDIS_PORT : Option String
  REDIS_TLS : Option String
  REDIS_PASSWORD : Option String

/-- The value of `process.env.X`. -/
def envVal : Option String → JsVal
  | none => .undefined
  | some s => .str s

/-- Line 8: `process.env.REDIS_HOST || 'localhost'`. -/
def REDIS_HOST (env : ProcessEnv) : JsVal :=
  jsOr (envVal env.REDIS_HOST) (.str "localhost")

/-- Line 9: `process.env.REDIS_PORT || 6379`. -/
def REDIS_PORT (env : ProcessEnv) : JsVal :=
  jsOr (envVal env.REDIS_PORT) (.num 6379)

/-- Line 10: `process.env.REDIS_TLS === 'true'`. -/
def REDIS_TLS (env : ProcessEnv) : Bool :=
  match env.REDIS_TLS with
  | some s => s == "true"
  | none => false

/-- Line 11: `process.env.REDIS_PASSWORD`. -/
def REDIS_PASSWORD (env : ProcessEnv) : JsVal :=
  envVal env.REDIS_PASSWORD

/-! ## The cache client and the effects of a handler -/

/-- The interface of the Redis client the handlers use.  Every call returns the resolved
value or the rejection, and the next state of the client. -/
structure RedisClient (σ : Type) where
  isOpen : σ → Bool
  connect : σ → Except JsError Unit × σ
  ping : σ → Except JsError JsVal × σ
  set : JsVal → JsVal → σ → Except JsError Unit × σ
  get : JsVal → σ → Except JsError JsVal × σ

/-- A call on the cache client. -/
inductive Op where
  | connect
  | ping
  | set (key value : JsVal)
  | get (key : JsVal)

/-- A call on the cache client together with its rejection, if it was rejected. -/
structure Call where
  op : Op
  error : Option JsError

/-- The call resolved. -/
def Call.ok (call : Call) : Bool :=
  call.error.isNone

/-- The call is `connect()`. -/
def Op.isConnect : Op → Bool
  | .connect => true
  | _ => false

/-- The call is a cache operation: `ping`, `set` or `get`. -/
def Op.isCacheOperation : Op → Bool
  | .connect => false
  | _ => true

/-- A response written with `res.status(..).json(..)`. -/
structure Response where
  status : Nat
  body : JsVal

/-- What a handler reads and changes. -/
structure St (σ : Type) where
  redis : σ
  dateReads : Nat
  calls : List Call
  sent : List Response

/-- A computation of a handler: it resolves with a value or rejects with an error. -/
def Eff (σ : Type) (α : Type) : Type :=
  St σ → Except JsError α × St σ

/-- A computation that resolves at once. -/
def Eff.pure {σ α : Type} (a : α) : Eff σ α :=
  fun st => (.ok a, st)

/-- Sequencing (`await`): a rejection skips what follows. -/
def Eff.bind {σ α β : Type} (m : Eff σ α) (f : α → Eff σ β) : Eff σ β :=
  fun st =>
    match m st with
    | (.ok a, st1) => f a st1
    | (.error e, st1) => (.error e, st1)

instance {σ : Type} : Monad (Eff σ) where
  pure := Eff.pure
  bind := Eff.bind

/-- The statement `try { body } catch (error) { handler }`. -/
def Eff.tryCatch {σ α : Type} (body : Eff σ α) (handler : JsError → Eff σ α) : Eff σ α :=
  fun st =>
    match body st with
    | (.ok a, st1) => (.ok a, st1)
    | (.error e, st1) => handler e st1

/-- Records a call and its outcome. -/
def St.record {σ : Type} (st : St σ) (op : Op) (error : Option JsError) (next : σ) : St σ :=
  { st with redis := next, calls := st.calls ++ [⟨op, error⟩] }

/-- The property `redisClient.isOpen`. -/
def clientIsOpen {σ : Type} (c : RedisClient σ) : Eff σ Bool :=
  fun st => (.ok (c.isOpen st.redis), st)

/-- The call `await redisClient.connect()`. -/
def clientConnect {σ : Type} (c : RedisClient σ) : Eff σ Unit :=
  fun st =>
    match c.connect st.redis with
    | (.ok u, next) => (.ok u, st.record .connect none next)
    | (.error e, next) => (.error e, st.record .connect (some e) next)

/-- The call `await redisClient.ping()`. -/
def clientPing {σ : Type} (c : RedisClient σ) : Eff σ JsVal :=
  fun st =>
    match c.ping st.redis with
    | (.ok v, next) => (.ok v, st.record .ping none next)
    | (.error e, next) => (.error e, st.record .ping (some e) next)

/-- The call `await redisClient.set(key, value)`. -/
def clientSet {σ : Type} (c : RedisClient σ) (key value : JsVal) : Eff σ Unit :=
  fun st =>
    match c.set key value st.redis with
    | (.ok u, next) => (.ok u, st.record (.set key value) none next)
    | (.error e, next) => (.error e, st.record (.set key value) (some e) next)

/-- The call `await redisClient.get(key)`. -/
def clientGet {σ : Type} (c : RedisClient σ) (key : JsVal) : Eff σ JsVal :=
  fun st =>
    match c.get key st.redis with
    | (.ok v, next) => (.ok v, st.record (.get key) none next)
    | (.error e, next) => (.error e, st.record (.get key) (some e) next)

/-- The expression `new Date().toISOString()`: `clock n` is what the `n`-th evaluation
returns. -/
def newDateISOString {σ : Type} (clock : Nat → String) : Eff σ JsVal :=
  fun st => (.ok (.str (clock st.dateReads)), { st with dateReads := st.dateReads + 1 })

/-- The call `res.status(status).json(body)`; `res.json(body)` is status 200. -/
def resJson {σ : Type} (status : Nat) (body : JsVal) : Eff σ Unit :=
  fun st => (.ok (), { st with sent := st.sent ++ [⟨status, body⟩] })

/-- A request: the parsed query string `req.query`. -/
structure Request where
  query : List (String × JsVal)

/-- The property `req.query.name`. -/
def Request.param (req : Request) (name : String) : JsVal :=
  (JsVal.obj req.query).field name

/-! ## The handlers -/

/-- Lines 90-95: the static `troubleshooting` object of the `/health` failure body. -/
def troubleshooting : JsVal :=
  .obj [
    ("check_vpc_connector", .str "Verify App Runner VPC Connector subnets"),
    ("check_security_groups", .str "Verify security group rules allow port 6379"),
    ("check_nacls", .str "Check Network ACL rules on connector subnets"),
    ("check_redis_endpoint", .str "Verify Redis endpoint is reachable from VPC")]

/-- Lines 54-75: the `try` block of `app.get('/health')`. -/
def healthTry {σ : Type} (c : RedisClient σ) (env : ProcessEnv) (clock : Nat → String) :
    Eff σ Unit := do
  -- Try to connect if not already connected
  if !(← clientIsOpen c) then
    clientConnect c
  -- Ping Redis
  let pong ← clientPing c
  -- Try to set and get a test value
  clientSet c (.str "health_check") (← newDateISOString clock)
  let healthValue ← clientGet c (.str "health_check")
  resJson 200 (.obj [
    ("status", .str "healthy"),
    ("redis", .str "ok"),
    ("redis_host", REDIS_HOST env),
    ("redis_port", REDIS_PORT env),
    ("timestamp", ← newDateISOString clock),
    ("ping_response", pong),
    ("test_value", healthValue)])

/-- Lines 77-97: the `catch` block of `app.get('/health')`. -/
def healthCatch {σ : Type} (env : ProcessEnv) (clock : Nat → String) (error : JsError) :
    Eff σ Unit := do
  resJson 500 (.obj [
    ("status", .str "unhealthy"),
    ("redis", .str "error"),
    ("redis_host", REDIS_HOST env),
    ("redis_port", REDIS_PORT env),
    ("error", .str error.message),
    ("error_code", error.code),
    ("error_type", .str error.constructorName),
    ("timestamp", ← newDateISOString clock),
    ("troubleshooting", troubleshooting)])

/-- Lines 50-98: `app.get('/health', ...)`. -/
def health {σ : Type} (c : RedisClient σ) (env : ProcessEnv) (clock : Nat → String) :
    Eff σ Unit :=
  Eff.tryCatch (healthTry c env clock) (healthCatch env clock)

/-- Lines 101-119: `app.get('/', ...)`. -/
def info {σ : Type} (env : ProcessEnv) (clock : Nat → String) : Eff σ Unit := do
  resJson 200 (.obj [
    ("service", .str "Terraform Challenge App"),
    ("version", .str "1.0.0"),
    ("endpoints", .obj [
      ("health", .str "/health"),
      ("info", .str "/"),
      ("set", .str "/set?key=<key>&value=<value>"),
      ("get", .str "/get?key=<key>")]),
    ("redis_config", .obj [
      ("host", REDIS_HOST env),
      ("port", REDIS_PORT env),
      ("tls", .bool (REDIS_TLS env)),
      ("auth_enabled", .bool (REDIS_PASSWORD env).truthy)]),
    ("timestamp", ← newDateISOString clock)])

/-- Lines 132-145: the `try` block of `app.get('/set')`. -/
def setTry {σ : Type} (c : RedisClient σ) (clock : Nat → String) (key value : JsVal) :
    Eff σ Unit := do
  if !(← clientIsOpen c) then
    clientConnect c
  clientSet c key value
  resJson 200 (.obj [
    ("success", .bool true),
    ("operation", .str "set"),
    ("key", key),
    ("value", value),
    ("timestamp", ← newDateISOString clock)])

/-- Lines 147-155: the `catch` block of `app.get('/set')`. -/
def setCatch {σ : Type} (clock : Nat → String) (error : JsError) : Eff σ Unit := do
  resJson 500 (.obj [
    ("success", .bool false),
    ("operation", .str "set"),
    ("error", .str error.message),
    ("timestamp", ← newDateISOString clock)])

/-- Lines 122-156: `app.get('/set', ...)`. -/
def set {σ : Type} (c : RedisClient σ) (clock : Nat → String) (req : Request) : Eff σ Unit :=
  let key := req.param "key"
  let value := req.param "value"
  if !key.truthy || !value.truthy then
    resJson 400 (.obj [
      ("error", .str "Both key and value query parameters are required"),
      ("example", .str "/set?key=mykey&value=myvalue")])
  else
    Eff.tryCatch (setTry c clock key value) (setCatch clock)

/-- Lines 169-183: the `try` block of `app.get('/get')`. -/
def getTry {σ : Type} (c : RedisClient σ) (clock : Nat → String) (key : JsVal) :
    Eff σ Unit := do
  if !(← clientIsOpen c) then
    clientConnect c
  let value ← clientGet c key
  resJson 200 (.obj [
    ("success", .bool true),
    ("operation", .str "get"),
    ("key", key),
    ("value", value),
    ("found", .bool value.notNull),
    ("timestamp", ← newDateISOString clock)])

/-- Lines 185-193: the `catch` block of `app.get('/get')`. -/
def getCatch {σ : Type} (clock : Nat → String) (error : JsError) : Eff σ Unit := do
  resJson 500 (.obj [
    ("success", .bool false),
    ("operation", .str "get"),
    ("error", .str error.message),
    ("timestamp", ← newDateISOString clock)])

/-- Lines 159-194: `app.get('/get', ...)`. -/
def get {σ : Type} (c : RedisClient σ) (clock : Nat → String) (req : Request) : Eff σ Unit :=
  let key := req.param "key"
  if !key.truthy then
    resJson 400 (.obj [
      ("error", .str "Key query parameter is required"),
      ("example", .str "/get?key=mykey")])
  else
    Eff.tryCatch (getTry c clock key) (getCatch clock)

/-- The four routes registered with `app.get`. -/
inductive Route where
  | root
  | health
  | set
  | get

/-- Route dispatch: the handler registered for the route. -/
def handler {σ : Type} (c : RedisClient σ) (env : ProcessEnv) (clock : Nat → String) :
    Route → Request → Eff σ Unit
  | .root, _ => info env clock
  | .health, _ => health c env clock
  | .set, req => set c clock req
  | .get, req => get c clock req

/-- Serving one request: the handler runs from the client state `s` with `tick` earlier
evaluations of `new Date()`, no call made and no response written yet. -/
def serve {σ : Type} (c : RedisClient σ) (env : ProcessEnv) (clock : Nat → String)
    (route : Route) (req : Request) (s : σ) (tick : Nat) : Except JsError Unit × St σ :=
  handler c env clock route req ⟨s, tick, [], []⟩

/-- Whether the handler resolved (`.ok ()`) or a rejection escaped it. -/
def completion {σ : Type} (c : RedisClient σ) (env : ProcessEnv) (clock : Nat → String)
    (route : Route) (req : Request) (s : σ) (tick : Nat) : Except JsError Unit :=
  (serve c env clock route req s tick).1

/-- The responses written while serving the request, in order. -/
def responses {σ : Type} (c : RedisClient σ) (env : ProcessEnv) (clock : Nat → String)
    (route : Route) (req : Request) (s : σ) (tick : Nat) : List Response :=
  (serve c env clock route req s tick).2.sent

/-- The calls made on the cache client while serving the request, in order. -/
def clientCalls {σ : Type} (c : RedisClient σ) (env : ProcessEnv) (clock : Nat → String)
    (route : Route) (req : Request) (s : σ) (tick : Nat) : List Call :=
  (serve c env clock route req s tick).2.calls

/-- The state of the cache client once the request is served. -/
def clientAfter {σ : Type} (c : RedisClient σ) (env : ProcessEnv) (clock : Nat → String)
    (route : Route) (req : Request) (s : σ) (tick : Nat) : σ :=
  (serve c env clock route req s tick).2.redis

/-- The number of `new Date()` evaluations once the request is served. -/
def dateReadsAfter {σ : Type} (c : RedisClient σ) (env : ProcessEnv) (clock : Nat → String)
    (route : Route) (req : Request) (s : σ) (tick : Nat) : Nat :=
  (serve c env clock route req s tick).2.dateReads

/-- The calls `/health` makes when every one of them resolves: `connect` if the handle is
not open, then `ping`, `set` and `get` of the key `health_check`. -/
def healthChain (handleOpen : Bool) (stamp : String) : List Op :=
  (if handleOpen then [] else [Op.connect]) ++
    [Op.ping, Op.set (.str "health_check") (.str stamp), Op.get (.str "health_check")]

/-- The calls of a request that are cache operations (`ping`, `set`, `get`). -/
def cacheOperations (calls : List Call) : List Call :=
  calls.filter fun call => call.op.isCacheOperation

/-- The calls of a request that are `connect()`. -/
def connectCalls (calls : List Call) : List Call :=
  calls.filter fun call => call.op.isConnect

/-! ## Concrete clients, for evaluating the handlers -/

/-- State of the in-memory cache: the connection handle and the stored pairs. -/
structure MemCache where
  isOpen : Bool
  store : List (String × String)

/-- The rejection of a command whose argument is not a string. -/
def invalidArgument : JsError :=
  ⟨"Invalid argument type", .undefined, "TypeError"⟩

/-- A reachable cache held in memory: `connect` opens the handle, `set` stores the pair,
`get` returns the stored string or `null`. -/
def memClient : RedisClient MemCache where
  isOpen s := s.isOpen
  connect s := (.ok (), { s with isOpen := true })
  ping s := (.ok (.str "PONG"), s)
  set key value s :=
    match key, value with
    | .str k, .str v => (.ok (), { s with store := (k, v) :: s.store })
    | _, _ => (.error invalidArgument, s)
  get key s :=
    match key with
    | .str k =>
      match s.store.lookup k with
      | some v => (.ok (.str v), s)
      | none => (.ok .null, s)
    | _ => (.error invalidArgument, s)

/-- The rejection of a connection attempt to a port where nothing listens. -/
def connectionRefused : JsError :=
  ⟨"connect ECONNREFUSED 127.0.0.1:6380", .str "ECONNREFUSED", "Error"⟩

/-- An unreachable cache: the handle never opens and every call is rejected. -/
def downClient : RedisClient Unit where
  isOpen _ := false
  connect s := (.error connectionRefused, s)
  ping s := (.error connectionRefused, s)
  set _ _ s := (.error connectionRefused, s)
  get _ s := (.error connectionRefused, s)

/-- An environment with every variable unset. -/
def emptyEnv : ProcessEnv :=
  ⟨none, none, none, none, none⟩

/-- An environment that configures a TLS cache with a password. -/
def stagingEnv : ProcessEnv :=
  ⟨some "3000", some "cache.internal", some "6380", some "true", some "first-secret"⟩

/-- The same cache configuration with another listen port and another password. -/
def rotatedEnv : ProcessEnv :=
  ⟨some "8080", some "cache.internal", some "6380", some "true", some "second-secret"⟩

/-- A clock for the examples: the `n`-th reading is the text of `n`. -/
def tickClock (n : Nat) : String :=
  toString n

/-! ## Assumptions on the client library -/

/-- A reachable cache, seen through the client: `contents s k` is the string stored under
the key `k` in the state `s`.  Opening the handle resolves and leaves the contents alone,
`set` on an open handle resolves and stores the value, `get` on an open handle resolves
with the stored string, or with `null` when there is none. -/
structure ReachableCache {σ : Type} (c : RedisClient σ) (contents : σ → String → Option String) :
    Prop where
  connect_resolves : ∀ s, c.isOpen s = false →
    ∃ s1, c.connect s = (.ok (), s1) ∧ c.isOpen s1 = true ∧ contents s1 = contents s
  set_resolves : ∀ s k v, c.isOpen s = true →
    ∃ s1, c.set (.str k) (.str v) s = (.ok (), s1) ∧ contents s1 k = some v ∧
      ∀ k1, k1 ≠ k → contents s1 k1 = contents s k1
  get_resolves : ∀ s k, c.isOpen s = true →
    ∃ s1, c.get (.str k) s
        = (.ok (match contents s k with
            | some v => .str v
            | none => .null), s1) ∧
      contents s1 = contents s

/-- The handle of the client library: a `connect` that resolves leaves the handle open,
and a command that resolves on an open handle leaves it open. -/
structure KeepsHandleOpen {σ : Type} (c : RedisClient σ) : Prop where
  connect_opens : ∀ s u s1, c.connect s = (.ok u, s1) → c.isOpen s1 = true
  ping_keeps : ∀ s v s1, c.isOpen s = true → c.ping s = (.ok v, s1) → c.isOpen s1 = true
  set_keeps : ∀ key value s u s1, c.isOpen s = true →
    c.set key value s = (.ok u, s1) → c.isOpen s1 = true
  get_keeps : ∀ key s v s1, c.isOpen s = true → c.get key s = (.ok v, s1) → c.isOpen s1 = true

/-- The contents of the in-memory cache. -/
def memContents (s : MemCache) (k : String) : Option String :=
  s.store.lookup k

/-! ## Running a computation -/

/-- Running `m >>= f` from a state: `f` runs only if `m` resolves. -/
theorem bind_run {σ α β : Type} (m : Eff σ α) (f : α → Eff σ β) (st : St σ) :
    (m >>= f) st = match m st with
      | (.ok a, st1) => f a st1
      | (.error e, st1) => (.error e, st1) := rfl

/-! ## `/health` -/

/-- C4. For every client, `/health` writes exactly one response, and its status is 200
exactly when every call of the chain (the connect when the handle is not open, the ping,
the set and the get of `health_check`) resolves; the calls made are then the whole chain.
Otherwise the status is 500. The calls made are always an initial part of the chain and
every call but the last resolved: the first rejection ends the chain. -/
theorem health_ok_iff_chain_succeeds {σ : Type} (c : RedisClient σ) (env : ProcessEnv)
    (clock : Nat → String) (req : Request) (s : σ) (tick : Nat) :
    completion c env clock .health req s tick = .ok () ∧
    ∃ resp : Response,
      responses c env clock .health req s tick = [resp] ∧
      (resp.status = 200 ↔
        ∀ call ∈ clientCalls c env clock .health req s tick, call.ok = true) ∧
      (resp.status = 200 →
        resp.body.field "status" = .str "healthy" ∧
        (clientCalls c env clock .health req s tick).map Call.op
          = healthChain (c.isOpen s) (clock tick)) ∧
      (resp.status ≠ 200 → resp.status = 500 ∧ resp.body.field "status" = .str "unhealthy") ∧
      (clientCalls c env clock .health req s tick).map Call.op
        = (healthChain (c.isOpen s) (clock tick)).take
            (clientCalls c env clock .health req s tick).length ∧
      (∀ call ∈ (clientCalls c env clock .health req s tick).dropLast, call.ok = true) := by
  cases hopen : c.isOpen s
  · rcases hc : c.connect s with ⟨rc, s1⟩
    rcases hp : c.ping s1 with ⟨rp, s2⟩
    rcases hs : c.set (.str "health_check") (.str (clock tick)) s2 with ⟨rs, s3⟩
    rcases hg : c.get (.str "health_check") s3 with ⟨rg, s4⟩
    cases rc <;> cases rp <;> cases rs <;> cases rg <;>
    simp [completion, responses, clientCalls, healthChain, serve, handler, health, healthTry,
      healthCatch, Eff.tryCatch, bind_run, clientIsOpen, clientConnect, clientPing, clientSet,
      clientGet, newDateISOString, resJson, St.record, pure, Eff.pure, hopen, hc, hp, hs, hg,
      Call.ok, JsVal.field, List.lookup]
  · rcases hp : c.ping s with ⟨rp, s2⟩
    rcases hs : c.set (.str "health_check") (.str (clock tick)) s2 with ⟨rs, s3⟩
    rcases hg : c.get (.str "health_check") s3 with ⟨rg, s4⟩
    cases rp <;> cases rs <;> cases rg <;>
    simp [completion, responses, clientCalls, healthChain, serve, handler, health, healthTry,
      healthCatch, Eff.tryCatch, bind_run, clientIsOpen, clientConnect, clientPing, clientSet,
      clientGet, newDateISOString, resJson, St.record, pure, Eff.pure, hopen, hp, hs, hg,
      Call.ok, JsVal.field, List.lookup]

/-- C6. Whenever a call of the `/health` chain is rejected with the error `e`, the one
response written has status 500 and a body whose `status` is `unhealthy`, whose `error`
is the message of `e`, whose `error_code` is the code of `e`, and whose `troubleshooting`
is the static object of four hints, the same for every error. -/
theorem health_failure_body {σ : Type} (c : RedisClient σ) (env : ProcessEnv)
    (clock : Nat → String) (req : Request) (s : σ) (tick : Nat) (op : Op) (e : JsError)
    (hcall : ⟨op, some e⟩ ∈ clientCalls c env clock .health req s tick) :
    ∃ body : JsVal,
      responses c env clock .health req s tick = [⟨500, body⟩] ∧
      body.field "status" = .str "unhealthy" ∧
      body.field "error" = .str e.message ∧
      body.field "error_code" = e.code ∧
      body.field "troubleshooting" = .obj [
        ("check_vpc_connector", .str "Verify App Runner VPC Connector subnets"),
        ("check_security_groups", .str "Verify security group rules allow port 6379"),
        ("check_nacls", .str "Check Network ACL rules on connector subnets"),
        ("check_redis_endpoint", .str "Verify Redis endpoint is reachable from VPC")] := by
  revert hcall
  cases hopen : c.isOpen s
  · rcases hc : c.connect s with ⟨rc, s1⟩
    rcases hp : c.ping s1 with ⟨rp, s2⟩
    rcases hs : c.set (.str "health_check") (.str (clock tick)) s2 with ⟨rs, s3⟩
    rcases hg : c.get (.str "health_check") s3 with ⟨rg, s4⟩
    cases rc <;> cases rp <;> cases rs <;> cases rg <;>
    simp [responses, clientCalls, troubleshooting, serve, handler, health, healthTry,
      healthCatch, Eff.tryCatch, bind_run, clientIsOpen, clientConnect, clientPing, clientSet,
      clientGet, newDateISOString, resJson, St.record, pure, Eff.pure, hopen, hc, hp, hs, hg,
      JsVal.field, List.lookup] <;>
    intro _ h <;> simp [h]
  · rcases hp : c.ping s with ⟨rp, s2⟩
    rcases hs : c.set (.str "health_check") (.str (clock tick)) s2 with ⟨rs, s3⟩
    rcases hg : c.get (.str "health_check") s3 with ⟨rg, s4⟩
    cases rp <;> cases rs <;> cases rg <;>
    simp [responses, clientCalls, troubleshooting, serve, handler, health, healthTry,
      healthCatch, Eff.tryCatch, bind_run, clientIsOpen, clientConnect, clientPing, clientSet,
      clientGet, newDateISOString, resJson, St.record, pure, Eff.pure, hopen, hp, hs, hg,
      JsVal.field, List.lookup] <;>
    intro _ h <;> simp [h]

/-- C6 at a concrete input: the cache on a wrong port refuses the connection. -/
theorem health_failure_body_witness :
    ∃ body : JsVal,
      responses downClient emptyEnv tickClock .health ⟨[]⟩ () 0 = [⟨500, body⟩] ∧
      body.field "status" = .str "unhealthy" ∧
      body.field "error" = .str "connect ECONNREFUSED 127.0.0.1:6380" ∧
      body.field "error_code" = .str "ECONNREFUSED" ∧
      body.field "troubleshooting" = .obj [
        ("check_vpc_connector", .str "Verify App Runner VPC Connector subnets"),
        ("check_security_groups", .str "Verify security group rules allow port 6379"),
        ("check_nacls", .str "Check Network ACL rules on connector subnets"),
        ("check_redis_endpoint", .str "Verify Redis endpoint is reachable from VPC")] :=
  health_failure_body downClient emptyEnv tickClock ⟨[]⟩ () 0 .connect connectionRefused
    (List.Mem.head _)

/-! ## `/` -/

/-- C5. For every client, client state, request and clock, `GET /` resolves, writes one
response of status 200, makes no call on the cache client and leaves its state unchanged.
The body depends only on the configured host, port, TLS flag and whether a password is
configured: for any two environments that agree on these four, and any two clients,
states, requests and clocks, the bodies without their `timestamp` are equal, and that
body is the static service description together with these four values. -/
theorem info_independent_of_cache {σ τ : Type} (c : RedisClient σ) (d : RedisClient τ)
    (env env2 : ProcessEnv) (clock clock2 : Nat → String) (req req2 : Request) (s : σ) (t : τ)
    (tick tick2 : Nat)
    (hhost : REDIS_HOST env = REDIS_HOST env2)
    (hport : REDIS_PORT env = REDIS_PORT env2)
    (htls : REDIS_TLS env = REDIS_TLS env2)
    (hauth : (REDIS_PASSWORD env).truthy = (REDIS_PASSWORD env2).truthy) :
    completion c env clock .root req s tick = .ok () ∧
    clientCalls c env clock .root req s tick = [] ∧
    clientAfter c env clock .root req s tick = s ∧
    ∃ body body2 : JsVal,
      responses c env clock .root req s tick = [⟨200, body⟩] ∧
      responses d env2 clock2 .root req2 t tick2 = [⟨200, body2⟩] ∧
      body.without "timestamp" = body2.without "timestamp" ∧
      body.field "timestamp" = .str (clock tick) ∧
      body.without "timestamp" = .obj [
        ("service", .str "Terraform Challenge App"),
        ("version", .str "1.0.0"),
        ("endpoints", .obj [
          ("health", .str "/health"),
          ("info", .str "/"),
          ("set", .str "/set?key=<key>&value=<value>"),
          ("get", .str "/get?key=<key>")]),
        ("redis_config", .obj [
          ("host", REDIS_HOST env),
          ("port", REDIS_PORT env),
          ("tls", .bool (REDIS_TLS env)),
          ("auth_enabled", .bool (REDIS_PASSWORD env).truthy)])] := by
  simp [completion, responses, clientCalls, clientAfter, serve, handler, info, bind_run,
    newDateISOString, resJson, JsVal.field, JsVal.without, List.lookup, List.filter,
    hhost, hport, htls, hauth]

/-- C5 at a concrete input: two environments with different listen ports and different
passwords but the same cache configuration, one cache reachable and one not. -/
theorem info_independent_of_cache_witness :
    ∃ body body2 : JsVal,
      responses memClient stagingEnv tickClock .root ⟨[]⟩ ⟨false, []⟩ 0 = [⟨200, body⟩] ∧
      responses downClient rotatedEnv tickClock .root ⟨[("key", .str "k")]⟩ () 7
        = [⟨200, body2⟩] ∧
      body.without "timestamp" = body2.without "timestamp" :=
  have h := info_independent_of_cache memClient downClient stagingEnv rotatedEnv tickClock
    tickClock ⟨[]⟩ ⟨[("key", .str "k")]⟩ ⟨false, []⟩ () 0 7 rfl rfl rfl rfl
  h.2.2.2.imp fun _ hb => hb.imp fun _ hb2 => ⟨hb2.1, hb2.2.1, hb2.2.2.1⟩

/-! ## Parameter validation of `/set` and `/get` -/

/-- C2. A `/set` request without the `key` or without the `value` parameter, and a
`/get` request without the `key` parameter, is answered with status 400 and a body made
of an error text and an example of usage, for every client and client state; no call is
made on the cache client, whose state is unchanged. -/
theorem missing_parameter_is_400 {σ : Type} (c : RedisClient σ) (env : ProcessEnv)
    (clock : Nat → String) (route : Route) (req : Request) (s : σ) (tick : Nat)
    (hmissing : (route = .set ∧
        (req.query.lookup "key" = none ∨ req.query.lookup "value" = none)) ∨
      (route = .get ∧ req.query.lookup "key" = none)) :
    ∃ text usage : String,
      serve c env clock route req s tick
        = (.ok (), ⟨s, tick, [], [⟨400, .obj [("error", .str text), ("example", .str usage)]⟩]⟩) := by
  rcases hmissing with ⟨rfl, h | h⟩ | ⟨rfl, h⟩ <;>
  simp [serve, handler, set, get, Request.param, JsVal.field, JsVal.truthy, h, resJson]

/-- C2 at a concrete input: `/get` without parameters, cache unreachable. -/
theorem missing_parameter_is_400_witness :
    ∃ text usage : String,
      serve downClient emptyEnv tickClock .get ⟨[]⟩ () 0
        = (.ok (), ⟨(), 0, [], [⟨400, .obj [("error", .str text), ("example", .str usage)]⟩]⟩) :=
  missing_parameter_is_400 downClient emptyEnv tickClock .get ⟨[]⟩ () 0 (Or.inr ⟨rfl, rfl⟩)

/-! ## Cache operations per request -/

/-- C7, counterexample. `/health` on a reachable cache makes three cache operations. -/
theorem health_makes_three_operations :
    ¬ (cacheOperations
        (clientCalls memClient emptyEnv tickClock .health ⟨[]⟩ ⟨false, []⟩ 0)).length ≤ 1 := by
  decide

/-- C7, amended. Serving `/` makes no cache operation, serving `/set` or `/get` makes at
most one, and serving `/health` makes at most three: the cache operations of `/health`
are an initial part of ping, set of `health_check`, get of `health_check`. -/
theorem cache_operations_per_request {σ : Type} (c : RedisClient σ) (env : ProcessEnv)
    (clock : Nat → String) (route : Route) (req : Request) (s : σ) (tick : Nat) :
    (cacheOperations (clientCalls c env clock route req s tick)).length
      ≤ (match route with
        | .root => 0
        | .health => 3
        | .set => 1
        | .get => 1) ∧
    (cacheOperations (clientCalls c env clock .health req s tick)).map Call.op
      = [Op.ping, Op.set (.str "health_check") (.str (clock tick)),
          Op.get (.str "health_check")].take
        (cacheOperations (clientCalls c env clock .health req s tick)).length := by
  have hhealth :
      (cacheOperations (clientCalls c env clock .health req s tick)).length ≤ 3 ∧
      (cacheOperations (clientCalls c env clock .health req s tick)).map Call.op
        = [Op.ping, Op.set (.str "health_check") (.str (clock tick)),
            Op.get (.str "health_check")].take
          (cacheOperations (clientCalls c env clock .health req s tick)).length := by
    cases hopen : c.isOpen s
    · rcases hc : c.connect s with ⟨rc, s1⟩
      rcases hp : c.ping s1 with ⟨rp, s2⟩
      rcases hs : c.set (.str "health_check") (.str (clock tick)) s2 with ⟨rs, s3⟩
      rcases hg : c.get (.str "health_check") s3 with ⟨rg, s4⟩
      cases rc <;> cases rp <;> cases rs <;> cases rg <;>
      simp [cacheOperations, Op.isCacheOperation, clientCalls, serve, handler, health,
        healthTry, healthCatch, Eff.tryCatch, bind_run, clientIsOpen, clientConnect,
        clientPing, clientSet, clientGet, newDateISOString, resJson, St.record, pure,
        Eff.pure, hopen, hc, hp, hs, hg]
    · rcases hp : c.ping s with ⟨rp, s2⟩
      rcases hs : c.set (.str "health_check") (.str (clock tick)) s2 with ⟨rs, s3⟩
      rcases hg : c.get (.str "health_check") s3 with ⟨rg, s4⟩
      cases rp <;> cases rs <;> cases rg <;>
      simp [cacheOperations, Op.isCacheOperation, clientCalls, serve, handler, health,
        healthTry, healthCatch, Eff.tryCatch, bind_run, clientIsOpen, clientConnect,
        clientPing, clientSet, clientGet, newDateISOString, resJson, St.record, pure,
        Eff.pure, hopen, hp, hs, hg]
  refine ⟨?_, hhealth.2⟩
  cases route
  · simp [cacheOperations, clientCalls, serve, handler, info, bind_run, newDateISOString,
      resJson]
  · exact hhealth.1
  · simp only [clientCalls, serve, handler, set]
    generalize req.param "key" = key
    generalize req.param "value" = value
    cases hk : key.truthy <;> cases hv : value.truthy <;>
    cases hopen : c.isOpen s <;>
    rcases hc : c.connect s with ⟨rc, s1⟩ <;>
    rcases hs1 : c.set key value s1 with ⟨rs1, s2⟩ <;>
    rcases hs : c.set key value s with ⟨rs, s3⟩ <;>
    cases rc <;> cases rs1 <;> cases rs <;>
    simp [cacheOperations, Op.isCacheOperation, setTry, setCatch, Eff.tryCatch, bind_run,
      clientIsOpen, clientConnect, clientSet, newDateISOString, resJson, St.record, pure,
      Eff.pure, hopen, hc, hs1, hs]
  · simp only [clientCalls, serve, handler, get]
    generalize req.param "key" = key
    cases hk : key.truthy <;>
    cases hopen : c.isOpen s <;>
    rcases hc : c.connect s with ⟨rc, s1⟩ <;>
    rcases hg1 : c.get key s1 with ⟨rg1, s2⟩ <;>
    rcases hg : c.get key s with ⟨rg, s3⟩ <;>
    cases rc <;> cases rg1 <;> cases rg <;>
    simp [cacheOperations, Op.isCacheOperation, getTry, getCatch, Eff.tryCatch, bind_run,
      clientIsOpen, clientConnect, clientGet, newDateISOString, resJson, St.record, pure,
      Eff.pure, hopen, hc, hg1, hg]

/-! ## `/set` and `/get` with their parameters -/

/-- C8, counterexample. `/set` with an empty `key` parameter is answered with 400. -/
theorem set_with_empty_key_is_400 :
    (responses memClient emptyEnv tickClock .set
      ⟨[("key", .str ""), ("value", .str "v")]⟩ ⟨true, []⟩ 0).map Response.status = [400] := by
  decide

/-- C8, amended. A `/set` request whose `key` and `value` parameters are both truthy (a
non-empty string, an array or an object), and a `/get` request whose `key` parameter is
truthy, is never answered with 400: one response is written, of status 200 with `success`
true (and, for `/set`, the key and the value of the request) when every call on the cache
client resolves, and of status 500 with `success` false otherwise. -/
theorem truthy_parameters_never_400 {σ : Type} (c : RedisClient σ) (env : ProcessEnv)
    (clock : Nat → String) (route : Route) (req : Request) (s : σ) (tick : Nat)
    (hvalid : (route = .set ∧ (req.param "key").truthy = true ∧
        (req.param "value").truthy = true) ∨
      (route = .get ∧ (req.param "key").truthy = true)) :
    completion c env clock route req s tick = .ok () ∧
    ∃ resp : Response,
      responses c env clock route req s tick = [resp] ∧
      resp.status ≠ 400 ∧
      (resp.status = 200 ↔ ∀ call ∈ clientCalls c env clock route req s tick, call.ok = true) ∧
      (resp.status = 200 →
        resp.body.field "success" = .bool true ∧
        (route = .set →
          resp.body.field "key" = req.param "key" ∧
          resp.body.field "value" = req.param "value")) ∧
      (resp.status ≠ 200 → resp.status = 500 ∧ resp.body.field "success" = .bool false) := by
  rcases hvalid with ⟨rfl, hk, hv⟩ | ⟨rfl, hk⟩
  · simp only [completion, responses, clientCalls, serve, handler, set]
    revert hk hv
    generalize req.param "key" = key
    generalize req.param "value" = value
    intro hk hv
    cases hopen : c.isOpen s <;>
    rcases hc : c.connect s with ⟨rc, s1⟩ <;>
    rcases hs1 : c.set key value s1 with ⟨rs1, s2⟩ <;>
    rcases hs : c.set key value s with ⟨rs, s3⟩ <;>
    cases rc <;> cases rs1 <;> cases rs <;>
    simp [setTry, setCatch, Eff.tryCatch, bind_run, clientIsOpen, clientConnect, clientSet,
      newDateISOString, resJson, St.record, pure, Eff.pure, hopen, hc, hs1, hs, hk, hv,
      Call.ok, JsVal.field, List.lookup]
  · simp only [completion, responses, clientCalls, serve, handler, get]
    revert hk
    generalize req.param "key" = key
    intro hk
    cases hopen : c.isOpen s <;>
    rcases hc : c.connect s with ⟨rc, s1⟩ <;>
    rcases hg1 : c.get key s1 with ⟨rg1, s2⟩ <;>
    rcases hg : c.get key s with ⟨rg, s3⟩ <;>
    cases rc <;> cases rg1 <;> cases rg <;>
    simp [getTry, getCatch, Eff.tryCatch, bind_run, clientIsOpen, clientConnect, clientGet,
      newDateISOString, resJson, St.record, pure, Eff.pure, hopen, hc, hg1, hg, hk,
      Call.ok, JsVal.field, List.lookup]

/-- C8, amended, at a concrete input: `/set?key=a&value=b` on the in-memory cache. -/
theorem truthy_parameters_never_400_witness :
    ∃ resp : Response,
      responses memClient emptyEnv tickClock .set
        ⟨[("key", .str "a"), ("value", .str "b")]⟩ ⟨false, []⟩ 0 = [resp] ∧
      resp.status ≠ 400 :=
  have h := truthy_parameters_never_400 memClient emptyEnv tickClock .set
    ⟨[("key", .str "a"), ("value", .str "b")]⟩ ⟨false, []⟩ 0 (Or.inl ⟨rfl, rfl, rfl⟩)
  h.2.imp fun _ hresp => ⟨hresp.1, hresp.2.1⟩

/-- C9. Whenever a call made while serving `/set` or `/get` (the connect, or the cache
set or get) is rejected with the error `e`, the parameters had passed validation, the
handler resolves instead of rejecting, and it writes exactly one response: status 500,
`success` false, `operation` naming the endpoint and `error` the message of `e`. -/
theorem rejections_become_500 {σ : Type} (c : RedisClient σ) (env : ProcessEnv)
    (clock : Nat → String) (route : Route) (req : Request) (s : σ) (tick : Nat)
    (op : Op) (e : JsError)
    (hroute : route = .set ∨ route = .get)
    (hcall : ⟨op, some e⟩ ∈ clientCalls c env clock route req s tick) :
    (req.param "key").truthy = true ∧
    (route = .set → (req.param "value").truthy = true) ∧
    completion c env clock route req s tick = .ok () ∧
    ∃ body : JsVal,
      responses c env clock route req s tick = [⟨500, body⟩] ∧
      body.field "success" = .bool false ∧
      body.field "operation" = .str (match route with
        | .set => "set"
        | _ => "get") ∧
      body.field "error" = .str e.message := by
  revert hcall
  rcases hroute with rfl | rfl
  · simp only [completion, responses, clientCalls, serve, handler, set]
    generalize req.param "key" = key
    generalize req.param "value" = value
    cases hk : key.truthy <;> cases hv : value.truthy <;>
    cases hopen : c.isOpen s <;>
    rcases hc : c.connect s with ⟨rc, s1⟩ <;>
    rcases hs1 : c.set key value s1 with ⟨rs1, s2⟩ <;>
    rcases hs : c.set key value s with ⟨rs, s3⟩ <;>
    cases rc <;> cases rs1 <;> cases rs <;>
    simp [setTry, setCatch, Eff.tryCatch, bind_run, clientIsOpen, clientConnect, clientSet,
      newDateISOString, resJson, St.record, pure, Eff.pure, hopen, hc, hs1, hs,
      JsVal.field, List.lookup] <;>
    intro _ h <;> simp [h]
  · simp only [completion, responses, clientCalls, serve, handler, get]
    generalize req.param "key" = key
    cases hk : key.truthy <;>
    cases hopen : c.isOpen s <;>
    rcases hc : c.connect s with ⟨rc, s1⟩ <;>
    rcases hg1 : c.get key s1 with ⟨rg1, s2⟩ <;>
    rcases hg : c.get key s with ⟨rg, s3⟩ <;>
    cases rc <;> cases rg1 <;> cases rg <;>
    simp [getTry, getCatch, Eff.tryCatch, bind_run, clientIsOpen, clientConnect, clientGet,
      newDateISOString, resJson, St.record, pure, Eff.pure, hopen, hc, hg1, hg,
      JsVal.field, List.lookup] <;>
    intro _ h <;> simp [h]

/-- C9 at a concrete input: `/get?key=a` while the cache refuses the connection. -/
theorem rejections_become_500_witness :
    ∃ body : JsVal,
      responses downClient emptyEnv tickClock .get ⟨[("key", .str "a")]⟩ () 0
        = [⟨500, body⟩] ∧
      body.field "success" = .bool false ∧
      body.field "operation" = .str "get" ∧
      body.field "error" = .str "connect ECONNREFUSED 127.0.0.1:6380" :=
  (rejections_become_500 downClient emptyEnv tickClock .get ⟨[("key", .str "a")]⟩ () 0
    .connect connectionRefused (Or.inr rfl) (List.Mem.head _)).2.2.2

/-! ## The connection handle -/

/-- The in-memory client keeps its handle open. -/
theorem memClient_keepsHandleOpen : KeepsHandleOpen memClient where
  connect_opens := by
    intro s u s1 h
    simp only [memClient, Prod.mk.injEq] at h
    obtain ⟨_, rfl⟩ := h
    rfl
  ping_keeps := by
    intro s v s1 hopen h
    simp only [memClient, Prod.mk.injEq] at h
    obtain ⟨_, rfl⟩ := h
    exact hopen
  set_keeps := by
    intro key value s u s1 hopen h
    cases key <;> cases value <;> simp [memClient] at h
    rw [← h]
    exact hopen
  get_keeps := by
    intro key s v s1 hopen h
    cases key <;> simp [memClient] at h
    split at h <;> simp at h <;> rw [← h.2] <;> exact hopen

/-- C10. Serving `/health`, or `/set` or `/get` with parameters that pass validation,
calls `connect()` once when the handle is not open at the start of the request and not
at all when it is open; a `connect()` call is the first call of the request. With a client
library that keeps its handle open, the handle is open after a request answered with 200. -/
theorem connect_exactly_when_closed {σ : Type} (c : RedisClient σ) (env : ProcessEnv)
    (clock : Nat → String) (route : Route) (req : Request) (s : σ) (tick : Nat)
    (hvalid : route = .health ∨
      (route = .set ∧ (req.param "key").truthy = true ∧ (req.param "value").truthy = true) ∨
      (route = .get ∧ (req.param "key").truthy = true)) :
    (connectCalls (clientCalls c env clock route req s tick)).length
      = (if c.isOpen s then 0 else 1) ∧
    (connectCalls ((clientCalls c env clock route req s tick).drop 1)) = [] ∧
    (KeepsHandleOpen c →
      ∀ resp ∈ responses c env clock route req s tick, resp.status = 200 →
        c.isOpen (clientAfter c env clock route req s tick) = true) := by
  rcases hvalid with rfl | ⟨rfl, hk, hv⟩ | ⟨rfl, hk⟩
  · cases hopen : c.isOpen s
    · rcases hc : c.connect s with ⟨rc, s1⟩
      rcases hp : c.ping s1 with ⟨rp, s2⟩
      rcases hs : c.set (.str "health_check") (.str (clock tick)) s2 with ⟨rs, s3⟩
      rcases hg : c.get (.str "health_check") s3 with ⟨rg, s4⟩
      cases rc <;> cases rp <;> cases rs <;> cases rg <;>
      simp [connectCalls, Op.isConnect, responses, clientCalls, clientAfter, serve, handler,
        health, healthTry, healthCatch, Eff.tryCatch, bind_run, clientIsOpen, clientConnect,
        clientPing, clientSet, clientGet, newDateISOString, resJson, St.record, pure,
        Eff.pure, hopen, hc, hp, hs, hg]
      intro hlib
      exact hlib.get_keeps _ _ _ _ (hlib.set_keeps _ _ _ _ _ (hlib.ping_keeps _ _ _
        (hlib.connect_opens _ _ _ hc) hp) hs) hg
    · rcases hp : c.ping s with ⟨rp, s2⟩
      rcases hs : c.set (.str "health_check") (.str (clock tick)) s2 with ⟨rs, s3⟩
      rcases hg : c.get (.str "health_check") s3 with ⟨rg, s4⟩
      cases rp <;> cases rs <;> cases rg <;>
      simp [connectCalls, Op.isConnect, responses, clientCalls, clientAfter, serve, handler,
        health, healthTry, healthCatch, Eff.tryCatch, bind_run, clientIsOpen, clientConnect,
        clientPing, clientSet, clientGet, newDateISOString, resJson, St.record, pure,
        Eff.pure, hopen, hp, hs, hg]
      intro hlib
      exact hlib.get_keeps _ _ _ _ (hlib.set_keeps _ _ _ _ _ (hlib.ping_keeps _ _ _
        hopen hp) hs) hg
  · simp only [responses, clientCalls, clientAfter, serve, handler, set]
    revert hk hv
    generalize req.param "key" = key
    generalize req.param "value" = value
    intro hk hv
    cases hopen : c.isOpen s
    · rcases hc : c.connect s with ⟨rc, s1⟩
      rcases hs : c.set key value s1 with ⟨rs, s2⟩
      cases rc <;> cases rs <;>
      simp [connectCalls, Op.isConnect, setTry, setCatch, Eff.tryCatch, bind_run,
        clientIsOpen, clientConnect, clientSet, newDateISOString, resJson, St.record, pure,
        Eff.pure, hopen, hc, hs, hk, hv]
      intro hlib
      exact hlib.set_keeps _ _ _ _ _ (hlib.connect_opens _ _ _ hc) hs
    · rcases hs : c.set key value s with ⟨rs, s2⟩
      cases rs <;>
      simp [connectCalls, Op.isConnect, setTry, setCatch, Eff.tryCatch, bind_run,
        clientIsOpen, clientConnect, clientSet, newDateISOString, resJson, St.record, pure,
        Eff.pure, hopen, hs, hk, hv]
      intro hlib
      exact hlib.set_keeps _ _ _ _ _ hopen hs
  · simp only [responses, clientCalls, clientAfter, serve, handler, get]
    revert hk
    generalize req.param "key" = key
    intro hk
    cases hopen : c.isOpen s
    · rcases hc : c.connect s with ⟨rc, s1⟩
      rcases hg : c.get key s1 with ⟨rg, s2⟩
      cases rc <;> cases rg <;>
      simp [connectCalls, Op.isConnect, getTry, getCatch, Eff.tryCatch, bind_run,
        clientIsOpen, clientConnect, clientGet, newDateISOString, resJson, St.record, pure,
        Eff.pure, hopen, hc, hg, hk]
      intro hlib
      exact hlib.get_keeps _ _ _ _ (hlib.connect_opens _ _ _ hc) hg
    · rcases hg : c.get key s with ⟨rg, s2⟩
      cases rg <;>
      simp [connectCalls, Op.isConnect, getTry, getCatch, Eff.tryCatch, bind_run,
        clientIsOpen, clientConnect, clientGet, newDateISOString, resJson, St.record, pure,
        Eff.pure, hopen, hg, hk]
      intro hlib
      exact hlib.get_keeps _ _ _ _ hopen hg

/-- C10 at a concrete input: `/health` on the in-memory cache with a closed handle. -/
theorem connect_exactly_when_closed_witness :
    (connectCalls (clientCalls memClient emptyEnv tickClock .health ⟨[]⟩ ⟨false, []⟩ 0)).length
      = 1 ∧
    memClient.isOpen (clientAfter memClient emptyEnv tickClock .health ⟨[]⟩ ⟨false, []⟩ 0)
      = true :=
  have h := connect_exactly_when_closed memClient emptyEnv tickClock .health ⟨[]⟩
    ⟨false, []⟩ 0 (Or.inl rfl)
  ⟨h.1, h.2.2 memClient_keepsHandleOpen ⟨200, _⟩ (List.Mem.head _) rfl⟩

/-! ## Set followed by get, on a reachable cache -/

/-- The in-memory client is a reachable cache. -/
theorem memClient_reachable : ReachableCache memClient memContents where
  connect_resolves := by
    intro s _
    exact ⟨_, rfl, rfl, rfl⟩
  set_resolves := by
    intro s k v _
    refine ⟨_, rfl, ?_, ?_⟩
    · simp [memContents, List.lookup]
    · intro k1 hne
      have hbeq : (k1 == k) = false := by simpa using hne
      simp [memContents, List.lookup, hbeq]
  get_resolves := by
    intro s k _
    refine ⟨s, ?_, rfl⟩
    simp only [memClient, memContents]
    cases s.store.lookup k <;> rfl

/-- On a reachable cache, `/set` with a non-empty string key and value answers 200 and
leaves the value stored under the key. -/
theorem set_stores_value {σ : Type} (c : RedisClient σ) (contents : σ → String → Option String)
    (hcache : ReachableCache c contents) (env : ProcessEnv) (clock : Nat → String)
    (K V : String) (hK : K ≠ "") (hV : V ≠ "") (req : Request)
    (hkey : req.param "key" = .str K) (hvalue : req.param "value" = .str V)
    (s : σ) (tick : Nat) :
    (∃ body : JsVal, responses c env clock .set req s tick = [⟨200, body⟩]) ∧
    contents (clientAfter c env clock .set req s tick) K = some V := by
  simp only [responses, clientAfter, serve, handler, set, hkey, hvalue]
  cases hopen : c.isOpen s
  · obtain ⟨s1, hc, hopen1, _⟩ := hcache.connect_resolves s hopen
    obtain ⟨s2, hs, hstored, _⟩ := hcache.set_resolves s1 K V hopen1
    simp [JsVal.truthy, hK, hV, setTry, Eff.tryCatch, bind_run, clientIsOpen, clientConnect,
      clientSet, newDateISOString, resJson, St.record, pure, Eff.pure, hopen, hc, hs, hstored]
  · obtain ⟨s2, hs, hstored, _⟩ := hcache.set_resolves s K V hopen
    simp [JsVal.truthy, hK, hV, setTry, Eff.tryCatch, bind_run, clientIsOpen, clientConnect,
      clientSet, newDateISOString, resJson, St.record, pure, Eff.pure, hopen, hs, hstored]

/-- On a reachable cache, `/get` with a non-empty string key answers 200 with the stored
string, or with `null` and `found` false when nothing is stored under the key. -/
theorem get_reads_contents {σ : Type} (c : RedisClient σ) (contents : σ → String → Option String)
    (hcache : ReachableCache c contents) (env : ProcessEnv) (clock : Nat → String)
    (K : String) (hK : K ≠ "") (req : Request) (hkey : req.param "key" = .str K)
    (s : σ) (tick : Nat) :
    responses c env clock .get req s tick
      = [⟨200, .obj [
          ("success", .bool true),
          ("operation", .str "get"),
          ("key", .str K),
          ("value", match contents s K with
            | some v => .str v
            | none => .null),
          ("found", .bool (contents s K).isSome),
          ("timestamp", .str (clock tick))]⟩] := by
  simp only [responses, serve, handler, get, hkey]
  cases hopen : c.isOpen s
  · obtain ⟨s1, hc, hopen1, hsame⟩ := hcache.connect_resolves s hopen
    obtain ⟨s2, hg, _⟩ := hcache.get_resolves s1 K hopen1
    rw [hsame] at hg
    cases hval : contents s K <;> rw [hval] at hg <;>
    simp [JsVal.truthy, JsVal.notNull, hK, getTry, Eff.tryCatch, bind_run, clientIsOpen,
      clientConnect, clientGet, newDateISOString, resJson, St.record, pure, Eff.pure, hopen,
      hc, hg]
  · obtain ⟨s2, hg, _⟩ := hcache.get_resolves s K hopen
    cases hval : contents s K <;> rw [hval] at hg <;>
    simp [JsVal.truthy, JsVal.notNull, hK, getTry, Eff.tryCatch, bind_run, clientIsOpen,
      clientConnect, clientGet, newDateISOString, resJson, St.record, pure, Eff.pure, hopen,
      hg]

/-- C1, counterexample. With an empty value, `/set` stores nothing and the `/get` that
follows finds nothing under the key. -/
theorem set_empty_value_then_get_not_found :
    (responses memClient emptyEnv tickClock .get ⟨[("key", .str "k")]⟩
      (clientAfter memClient emptyEnv tickClock .set
        ⟨[("key", .str "k"), ("value", .str "")]⟩ ⟨true, []⟩ 0)
      (dateReadsAfter memClient emptyEnv tickClock .set
        ⟨[("key", .str "k"), ("value", .str "")]⟩ ⟨true, []⟩ 0)).map
      (fun resp => (resp.body.field "value", resp.body.field "found"))
      = [(.null, .bool false)] := by
  rfl

/-- C1, amended. On a reachable cache, for every non-empty key `K` and non-empty value
`V` and every cache state, `/set` with `key=K` and `value=V` followed at once by `/get`
with `key=K` yields a `/get` response of status 200 whose `value` is `V` and whose `found`
is true. -/
theorem set_then_get_returns_value {σ : Type} (c : RedisClient σ)
    (contents : σ → String → Option String) (hcache : ReachableCache c contents)
    (env : ProcessEnv) (clock : Nat → String) (K V : String) (hK : K ≠ "") (hV : V ≠ "")
    (setReq getReq : Request) (hsetKey : setReq.param "key" = .str K)
    (hsetValue : setReq.param "value" = .str V) (hgetKey : getReq.param "key" = .str K)
    (s : σ) (tick : Nat) :
    ∃ body : JsVal,
      responses c env clock .get getReq (clientAfter c env clock .set setReq s tick)
        (dateReadsAfter c env clock .set setReq s tick) = [⟨200, body⟩] ∧
      body.field "value" = .str V ∧
      body.field "found" = .bool true := by
  have hset := set_stores_value c contents hcache env clock K V hK hV setReq hsetKey
    hsetValue s tick
  refine ⟨_, get_reads_contents c contents hcache env clock K hK getReq hgetKey _ _, ?_, ?_⟩
  · simp [hset.2, JsVal.field, List.lookup]
  · simp [hset.2, JsVal.field, List.lookup]

/-- C1, amended, at a concrete input: `/set?key=k&value=v` then `/get?key=k` on the
in-memory cache with a closed handle. -/
theorem set_then_get_returns_value_witness :
    ∃ body : JsVal,
      responses memClient emptyEnv tickClock .get ⟨[("key", .str "k")]⟩
        (clientAfter memClient emptyEnv tickClock .set
          ⟨[("key", .str "k"), ("value", .str "v")]⟩ ⟨false, []⟩ 0)
        (dateReadsAfter memClient emptyEnv tickClock .set
          ⟨[("key", .str "k"), ("value", .str "v")]⟩ ⟨false, []⟩ 0) = [⟨200, body⟩] ∧
      body.field "value" = .str "v" ∧
      body.field "found" = .bool true :=
  set_then_get_returns_value memClient memContents memClient_reachable emptyEnv tickClock
    "k" "v" (by decide) (by decide) ⟨[("key", .str "k"), ("value", .str "v")]⟩
    ⟨[("key", .str "k")]⟩ rfl rfl rfl ⟨false, []⟩ 0

/-- C3, counterexample. The empty key is stored nowhere, and `/get` with the empty key is
answered with 400. -/
theorem get_empty_key_is_400 :
    memContents ⟨true, []⟩ "" = none ∧
    (responses memClient emptyEnv tickClock .get ⟨[("key", .str "")]⟩ ⟨true, []⟩ 0).map
      Response.status = [400] := by
  decide

/-- C3, amended. On a reachable cache, for every non-empty key `K` under which nothing is
stored, `/get` with `key=K` answers 200 with `success` true, a `null` value and `found`
false. -/
theorem get_missing_key_not_found {σ : Type} (c : RedisClient σ)
    (contents : σ → String → Option String) (hcache : ReachableCache c contents)
    (env : ProcessEnv) (clock : Nat → String) (K : String) (hK : K ≠ "")
    (req : Request) (hkey : req.param "key" = .str K) (s : σ) (tick : Nat)
    (hmissing : contents s K = none) :
    ∃ body : JsVal,
      responses c env clock .get req s tick = [⟨200, body⟩] ∧
      body.field "success" = .bool true ∧
      body.field "value" = .null ∧
      body.field "found" = .bool false := by
  refine ⟨_, get_reads_contents c contents hcache env clock K hK req hkey s tick, ?_, ?_, ?_⟩
  · simp [JsVal.field, List.lookup]
  · simp [hmissing, JsVal.field, List.lookup]
  · simp [hmissing, JsVal.field, List.lookup]

/-- C3, amended, at a concrete input: `/get?key=k` on the empty in-memory cache. -/
theorem get_missing_key_not_found_witness :
    ∃ body : JsVal,
      responses memClient emptyEnv tickClock .get ⟨[("key", .str "k")]⟩ ⟨false, []⟩ 0
        = [⟨200, body⟩] ∧
      body.field "success" = .bool true ∧
      body.field "value" = .null ∧
      body.field "found" = .bool false :=
  get_missing_key_not_found memClient memContents memClient_reachable emptyEnv tickClock
    "k" (by decide) ⟨[("key", .str "k")]⟩ rfl ⟨false, []⟩ 0 rfl

end TerraformChallenge
